import Mathlib

/-!
Verification of the vidjson prompt-builder core: the data model
(SceneConfig, PromptComponents, PromptDocument), the lens classification
table, the suggestion engine, the prompt assembler of
simple_veo3_builder.py, and the JSON-fragment merge step of
veo3_prompt_builder.py. Strings are Lean strings; floats that are only
compared against integer constants are modelled as rationals (the
comparisons involved are exact on IEEE doubles in the relevant range);
the interactive y/n answers of the suggestion engine are explicit
boolean parameters; the mutable current_prompt dictionary is explicit
state passed to and returned by the assembler.
-/

namespace Vidjson

/-- The eight narrative component fields, as in the PromptComponents
dataclass of simple_veo3_builder.py (same defaults). -/
structure PromptComponents where
  subject : String := ""
  action : String := ""
  scene : String := ""
  style : String := "cinematic, photorealistic"
  camera : String := ""
  composition : String := ""
  ambiance : String := ""
  audio : String := ""
deriving DecidableEq, Repr

/-- Scene/camera/lighting configuration, as in the SceneConfig dataclass
of simple_veo3_builder.py (same defaults). -/
structure SceneConfig where
  camera_fov : ℚ := 50
  camera_height : ℚ := 5
  camera_distance : ℚ := 10
  camera_angle : String := "eye-level"
  shot_type : String := "medium"
  lighting_intensity : ℚ := 1
  lighting_type : String := "natural"
  time_of_day : String := "day"
  weather : String := "clear"
deriving DecidableEq, Repr

/-- The output JSON document, as the current_prompt dictionary
initialised in Veo3PromptBuilder.__init__ of simple_veo3_builder.py. -/
structure PromptDocument where
  prompt : String := ""
  caption : String := ""
  file_name : String := "video.mp4"
  input_image_urls : List String := []
  input_ids : List String := []
deriving DecidableEq, Repr

/-- The initial current_prompt state set in Veo3PromptBuilder.__init__. -/
def initPrompt : PromptDocument := {}

/-- Lens classification if-chain of display_lens_guide
(simple_veo3_builder.py lines 64-79); the same chain appears in
analyze_scene_setup of demo_veo3_builder.py. Returns the pair
(lens_type, effect). -/
def classifyLens (fov : ℚ) : String × String :=
  if fov < 25 then
    ("Super Telephoto (200mm+)", "Strong compression, isolated subjects")
  else if fov < 35 then
    ("Telephoto (85-135mm)", "Portrait lens, natural compression")
  else if fov < 55 then
    ("Standard (35-50mm)", "Natural perspective, human-like vision")
  else if fov < 75 then
    ("Wide Angle (24-35mm)", "Expanded view, some distortion")
  else
    ("Ultra Wide (14-24mm)", "Dramatic perspective, high distortion")

/-- Camera-movement suggestion table of suggest_from_scene
(simple_veo3_builder.py lines 223-230): a fixed dict lookup on shot_type
with default "Static shot". -/
def cameraSuggestion (shot_type : String) : String :=
  if shot_type = "wide" then "Static wide shot establishing the environment"
  else if shot_type = "medium" then "Slow dolly forward for character focus"
  else if shot_type = "close-up" then "Handheld close-up for intimacy"
  else if shot_type = "extreme close-up" then
    "Macro lens extreme close-up revealing details"
  else "Static shot"

/-- The 8-entry ambiance dict of suggest_from_scene
(simple_veo3_builder.py lines 237-246), keyed on the pair
(lighting_type, time_of_day); none means the key is absent. -/
def ambianceMap (lighting_type time_of_day : String) : Option String :=
  if lighting_type = "natural" ∧ time_of_day = "day" then
    some "Bright natural sunlight with soft shadows"
  else if lighting_type = "natural" ∧ time_of_day = "dawn" then
    some "Golden hour lighting with warm orange tones"
  else if lighting_type = "natural" ∧ time_of_day = "dusk" then
    some "Blue hour with deep purple and orange sky"
  else if lighting_type = "natural" ∧ time_of_day = "night" then
    some "Moonlight with cool blue tones and deep shadows"
  else if lighting_type = "dramatic" ∧ time_of_day = "day" then
    some "High contrast lighting with sharp shadows"
  else if lighting_type = "dramatic" ∧ time_of_day = "night" then
    some "Chiaroscuro lighting with stark black and white contrast"
  else if lighting_type = "soft" ∧ time_of_day = "day" then
    some "Diffused overcast light with gentle shadows"
  else if lighting_type = "backlit" ∧ time_of_day = "day" then
    some "Strong backlighting creating silhouettes and rim light"
  else none

/-- ambiance_map.get(key, fallback) of simple_veo3_builder.py line 249:
table lookup with the fallback string built from lighting_type and
time_of_day. -/
def suggestAmbiance (lighting_type time_of_day : String) : String :=
  (ambianceMap lighting_type time_of_day).getD
    (lighting_type ++ " " ++ time_of_day ++ " lighting")

/-- suggest_from_scene (simple_veo3_builder.py lines 218-252): when a
field is empty its suggestion is offered, and the interactive y/n answer
(here the booleans acceptCamera and acceptAmbiance) decides whether the
field is set to the suggestion. -/
def suggestFromScene (c : PromptComponents) (s : SceneConfig)
    (acceptCamera acceptAmbiance : Bool) : PromptComponents :=
  let c1 :=
    if c.camera = "" ∧ acceptCamera then
      { c with camera := cameraSuggestion s.shot_type }
    else c
  if c1.ambiance = "" ∧ acceptAmbiance then
    { c1 with ambiance := suggestAmbiance s.lighting_type s.time_of_day }
  else c1

/-- Accumulator pass of pySplit: current word characters are gathered
in reverse in acc; whitespace closes the current word, and empty words
are never produced. -/
def pySplitAux : List Char → List Char → List String
  | [], acc => if acc = [] then [] else [String.mk acc.reverse]
  | ch :: rest, acc =>
      if ch.isWhitespace then
        if acc = [] then pySplitAux rest []
        else String.mk acc.reverse :: pySplitAux rest []
      else pySplitAux rest (ch :: acc)

/-- Python str.split() with no argument: split on runs of whitespace,
dropping empty tokens. -/
def pySplit (s : String) : List String :=
  pySplitAux s.data []

/-- Python str.replace(c, "") for a single-character pattern: remove
every occurrence of that character. -/
def removeChar (c : Char) (s : String) : String :=
  ⟨s.data.filter fun a => a ≠ c⟩

/-- The eight-element list literal of build_final_prompt
(simple_veo3_builder.py lines 255-264): each slot is the labelled value
when the guard is truthy (Python truthiness on strings = non-empty) and
the empty string otherwise. Slot 4 (Composition) is guarded by
scene.shot_type and synthesized from the scene configuration. -/
def promptSegments (c : PromptComponents) (s : SceneConfig) : List String :=
  [ if c.subject ≠ "" then "Subject: " ++ c.subject else "",
    if c.action ≠ "" then "Action: " ++ c.action else "",
    if c.scene ≠ "" then "Scene: " ++ c.scene else "",
    if c.camera ≠ "" then "Camera: " ++ c.camera else "",
    if s.shot_type ≠ "" then
      "Composition: " ++ s.shot_type ++ " shot, " ++ s.camera_angle
    else "",
    if c.ambiance ≠ "" then "Ambiance: " ++ c.ambiance else "",
    if c.audio ≠ "" then "Audio: " ++ c.audio else "",
    if c.style ≠ "" then "Style: " ++ c.style else "" ]

/-- build_final_prompt (simple_veo3_builder.py lines 254-279) as a state
transformer on the current_prompt document: filter out the empty
segments and join with ". "; overwrite caption only when both subject
and action are non-empty; overwrite file_name from shot_type (hyphens
removed, then spaces removed) and time_of_day. -/
def buildFinalPrompt (doc : PromptDocument) (c : PromptComponents)
    (s : SceneConfig) : PromptDocument :=
  let segs := (promptSegments c s).filter fun t => t ≠ ""
  let doc1 := { doc with prompt := ". ".intercalate segs }
  let doc2 :=
    if c.subject ≠ "" ∧ c.action ≠ "" then
      { doc1 with
        caption :=
          " ".intercalate ((pySplit (c.subject ++ " " ++ c.action)).take 8) }
    else doc1
  let scene_type := removeChar ' ' (removeChar '-' s.shot_type)
  { doc2 with file_name := scene_type ++ "-" ++ s.time_of_day ++ ".mp4" }

/-- JSON values occurring in the current_prompt dictionary of
veo3_prompt_builder.py: strings and lists of strings. -/
inductive JValue where
  | str (s : String)
  | strList (l : List String)
deriving DecidableEq, Repr

/-- Python dict assignment d[k] = v on an insertion-ordered dictionary
modelled as a key-value list: overwrite in place when the key is
present, append otherwise. -/
def updateOne {V : Type} (d : List (String × V)) (kv : String × V) :
    List (String × V) :=
  if d.any fun p => p.1 = kv.1 then
    d.map fun p => if p.1 = kv.1 then (p.1, kv.2) else p
  else d ++ [kv]

/-- Python dict.update(frag): assign each fragment entry in order. -/
def dictUpdate {V : Type} (d frag : List (String × V)) :
    List (String × V) :=
  frag.foldl updateOne d

/-- The JSON-merge step of Veo3PromptBuilder.run
(veo3_prompt_builder.py lines 391-402): a successfully parsed fragment
(some frag) is merged into the current document with dict.update; a
malformed or absent JSON block (none; json.JSONDecodeError is swallowed
with pass) leaves the document unchanged. -/
def mergeStep {V : Type} (fragOpt : Option (List (String × V)))
    (d : List (String × V)) : List (String × V) :=
  match fragOpt with
  | none => d
  | some frag => dictUpdate d frag

/-- Key lookup in an insertion-ordered dictionary: the value of the
first entry holding the key. -/
def lookupKey {V : Type} (d : List (String × V)) (k : String) :
    Option V :=
  (d.find? fun p => p.1 = k).map fun p => p.2

/-- The initial current_prompt dictionary set up in
initialize_session_state (veo3_prompt_builder.py lines 63-70). -/
def initCurrentPrompt : List (String × JValue) :=
  [("prompt", JValue.str ""),
   ("caption", JValue.str ""),
   ("file_name", JValue.str "video.mp4"),
   ("input_image_urls", JValue.strList []),
   ("input_ids", JValue.strList [])]

end Vidjson

namespace Vidjson

/-- Key lookup distributes over cons. -/
theorem lookupKey_cons {V : Type} (p : String × V) (d : List (String × V))
    (k : String) :
    lookupKey (p :: d) k = if p.1 = k then some p.2 else lookupKey d k := by
  by_cases h : p.1 = k <;> simp [lookupKey, List.find?_cons, h]

/-- A key on which no entry matches looks up to none. -/
theorem lookupKey_eq_none {V : Type} (d : List (String × V)) (k : String)
    (h : (d.any fun p => p.1 = k) = false) : lookupKey d k = none := by
  induction d with
  | nil => rfl
  | cons p rest ih =>
      simp only [List.any_cons, Bool.or_eq_false_iff] at h
      rw [lookupKey_cons]
      rw [if_neg (by simpa using h.1)]
      exact ih h.2

/-- Key lookup distributes over append. -/
theorem lookupKey_append {V : Type} (d1 d2 : List (String × V))
    (k : String) :
    lookupKey (d1 ++ d2) k =
      (lookupKey d1 k).orElse fun _ => lookupKey d2 k := by
  induction d1 with
  | nil => simp [lookupKey]
  | cons p rest ih =>
      by_cases h : p.1 = k <;>
        simp [lookupKey_cons, h, ih, Option.orElse]

/-- In-place overwrite of key k leaves lookups of other keys alone. -/
theorem lookupKey_overwrite_ne {V : Type} (d : List (String × V))
    (k : String) (v : V) (k' : String) (h : k' ≠ k) :
    lookupKey (d.map fun p => if p.1 = k then (p.1, v) else p) k' =
      lookupKey d k' := by
  induction d with
  | nil => rfl
  | cons p rest ih =>
      by_cases hp : p.1 = k <;>
        by_cases hp' : p.1 = k' <;>
        simp_all [lookupKey_cons]

/-- In-place overwrite of a present key k makes k look up to the new
value. -/
theorem lookupKey_overwrite_self {V : Type} (d : List (String × V))
    (k : String) (v : V) (h : (d.any fun p => p.1 = k) = true) :
    lookupKey (d.map fun p => if p.1 = k then (p.1, v) else p) k =
      some v := by
  induction d with
  | nil => simp at h
  | cons p rest ih =>
      by_cases hp : p.1 = k
      · simp [lookupKey_cons, hp]
      · simp only [List.any_cons, Bool.or_eq_true] at h
        rcases h with h | h
        · exact absurd (by simpa using h) hp
        · simp [lookupKey_cons, hp, ih h]

/-- Effect of a single dict assignment on lookups. -/
theorem lookupKey_updateOne {V : Type} (d : List (String × V))
    (k : String) (v : V) (k' : String) :
    lookupKey (updateOne d (k, v)) k' =
      if k' = k then some v else lookupKey d k' := by
  unfold updateOne
  by_cases hany : (d.any fun p => p.1 = k) = true
  · rw [if_pos hany]
    by_cases h : k' = k
    · subst h; rw [if_pos rfl]; exact lookupKey_overwrite_self d k' v hany
    · rw [if_neg h]; exact lookupKey_overwrite_ne d k v k' h
  · rw [if_neg hany, lookupKey_append]
    have hd : lookupKey d k = none :=
      lookupKey_eq_none d k (Bool.eq_false_iff.mpr hany)
    by_cases h : k' = k
    · rw [if_pos h, h, hd, lookupKey_cons]
      rw [if_pos (show ((k, v) : String × V).1 = k from rfl)]
      rfl
    · rw [if_neg h, lookupKey_cons]
      rw [if_neg (show ¬ ((k, v) : String × V).1 = k' from
            fun hc => h hc.symm)]
      cases h3 : lookupKey d k' <;> rfl

/-- A successful lookup means the key occurs in the dictionary. -/
theorem mem_keys_of_lookupKey_some {V : Type} (d : List (String × V))
    (k : String) (v : V) (h : lookupKey d k = some v) :
    k ∈ d.map Prod.fst := by
  induction d with
  | nil => simp [lookupKey] at h
  | cons p rest ih =>
      rw [lookupKey_cons] at h
      by_cases hp : p.1 = k
      · simp [hp]
      · rw [if_neg hp] at h
        simp [ih h]

/-- Effect of dict.update on lookups, for a fragment with distinct keys:
fragment keys win, all other keys keep their old value (and absent keys
stay absent). -/
theorem lookupKey_dictUpdate {V : Type} (d frag : List (String × V))
    (k : String) (hnd : (frag.map Prod.fst).Nodup) :
    lookupKey (dictUpdate d frag) k =
      (lookupKey frag k).orElse fun _ => lookupKey d k := by
  induction frag generalizing d with
  | nil => rfl
  | cons p rest ih =>
      obtain ⟨pk, pv⟩ := p
      rw [List.map_cons, List.nodup_cons] at hnd
      obtain ⟨hp, hrest⟩ := hnd
      rw [show dictUpdate d ((pk, pv) :: rest) =
            dictUpdate (updateOne d (pk, pv)) rest from rfl,
          ih (updateOne d (pk, pv)) hrest, lookupKey_updateOne,
          lookupKey_cons]
      cases h3 : lookupKey rest k with
      | some v =>
          have hmem := mem_keys_of_lookupKey_some rest k v h3
          have h : ¬ ((pk, pv) : String × V).1 = k :=
            fun hc => hp (hc ▸ hmem)
          rw [if_neg h]
          rfl
      | none =>
          by_cases h : pk = k
          · rw [if_pos (show ((pk, pv) : String × V).1 = k from h),
              if_pos h.symm]
            rfl
          · rw [if_neg (show ¬ ((pk, pv) : String × V).1 = k from h),
              if_neg (show ¬ k = pk from fun hc => h hc.symm)]

/-- Normal form of build_final_prompt: prompt and file_name are always
overwritten from (components, scene); caption is overwritten exactly
when subject and action are both non-empty; the input lists are carried
over from the prior document. -/
theorem buildFinalPrompt_eq (d : PromptDocument) (c : PromptComponents)
    (s : SceneConfig) :
    buildFinalPrompt d c s =
      { prompt :=
          ". ".intercalate ((promptSegments c s).filter fun t => t ≠ ""),
        caption :=
          if c.subject ≠ "" ∧ c.action ≠ "" then
            " ".intercalate
              ((pySplit (c.subject ++ " " ++ c.action)).take 8)
          else d.caption,
        file_name :=
          removeChar ' ' (removeChar '-' s.shot_type) ++ "-"
            ++ s.time_of_day ++ ".mp4",
        input_image_urls := d.input_image_urls,
        input_ids := d.input_ids } := by
  unfold buildFinalPrompt
  by_cases h : c.subject ≠ "" ∧ c.action ≠ "" <;> simp [h]

/-- Normal form of suggest_from_scene: camera and ambiance are filled
from the rule tables exactly when empty and accepted; nothing else
changes. -/
theorem suggestFromScene_eq (c : PromptComponents) (s : SceneConfig)
    (a b : Bool) :
    suggestFromScene c s a b =
      { c with
        camera :=
          if c.camera = "" ∧ a = true then cameraSuggestion s.shot_type
          else c.camera,
        ambiance :=
          if c.ambiance = "" ∧ b = true then
            suggestAmbiance s.lighting_type s.time_of_day
          else c.ambiance } := by
  unfold suggestFromScene
  by_cases h1 : c.camera = "" ∧ a = true <;>
    by_cases h2 : c.ambiance = "" ∧ b = true <;>
    simp [h1, h2]

end Vidjson

namespace Vidjson

/-- C4: for every fov in [20,120], classify_lens lands in exactly one of
the five lens bands, with lower-bound-inclusive boundaries 25, 35, 55,
75: the result names a band exactly when fov lies in that band, so the
bands partition the domain with no gap or overlap. -/
theorem classify_lens_partition (fov : ℚ) (h1 : 20 ≤ fov) (h2 : fov ≤ 120) :
    ((classifyLens fov).1 = "Super Telephoto (200mm+)" ↔ fov < 25)
    ∧ ((classifyLens fov).1 = "Telephoto (85-135mm)" ↔ 25 ≤ fov ∧ fov < 35)
    ∧ ((classifyLens fov).1 = "Standard (35-50mm)" ↔ 35 ≤ fov ∧ fov < 55)
    ∧ ((classifyLens fov).1 = "Wide Angle (24-35mm)" ↔ 55 ≤ fov ∧ fov < 75)
    ∧ ((classifyLens fov).1 = "Ultra Wide (14-24mm)" ↔ 75 ≤ fov) := by
  unfold classifyLens
  split_ifs with ha hb hc hd <;>
    refine ⟨?_, ?_, ?_, ?_, ?_⟩ <;>
    simp only [String.reduceEq, false_iff, true_iff, iff_false, iff_true] <;>
    first
      | linarith
      | (constructor <;> linarith)
      | (intro hk; rcases hk with ⟨hk1, hk2⟩; linarith)

/-- Witness for C4 at fov = 50: the hypotheses 20 ≤ 50 and 50 ≤ 120 hold
and the Standard band is returned. -/
theorem classify_lens_partition_witness :
    (classifyLens 50).1 = "Standard (35-50mm)" :=
  (classify_lens_partition 50 (by norm_num) (by norm_num)).2.2.1.mpr
    (by norm_num)

/-- C1 (amended): in build, the Composition segment is the synthesized
string taken from SceneConfig exactly when scene.shot_type is non-empty,
regardless of the caller-set components.composition, which is never
read. -/
theorem composition_synthesized (c : PromptComponents) (s : SceneConfig)
    (x : String) :
    (promptSegments { c with composition := x } s).get? 4 =
      some (if s.shot_type ≠ "" then
              "Composition: " ++ s.shot_type ++ " shot, " ++ s.camera_angle
            else "") := rfl

/-- C1 counterexample: with components.composition = "X" non-empty, the
built prompt still carries the synthesized Composition segment, not
"Composition: X" as the claim's emit-if-non-empty clause predicts. -/
theorem composition_counterexample :
    (buildFinalPrompt initPrompt { composition := "X" } {}).prompt =
        "Composition: medium shot, eye-level. Style: cinematic, photorealistic"
      ∧ (buildFinalPrompt initPrompt { composition := "X" } {}).prompt ≠
        "Composition: X. Style: cinematic, photorealistic" := by
  constructor <;> decide

/-- C2 counterexample: build is not a pure function of
(components, scene) independent of prior document state: two sessions
holding different caption state, given equal components and scene (with
empty subject), produce different documents. -/
theorem build_state_counterexample :
    buildFinalPrompt { initPrompt with caption := "stale" } {} {} ≠
      buildFinalPrompt initPrompt {} {} := by
  decide

/-- C2 (amended): build is a pure function of (prior document,
components, scene); its prompt and file_name fields never depend on the
prior document, its caption does not when both subject and action are
non-empty, and calling build twice on unchanged inputs yields a document
identical to calling it once. -/
theorem build_purity (d d1 d2 : PromptDocument) (c : PromptComponents)
    (s : SceneConfig) :
    buildFinalPrompt (buildFinalPrompt d c s) c s = buildFinalPrompt d c s
    ∧ (buildFinalPrompt d1 c s).prompt = (buildFinalPrompt d2 c s).prompt
    ∧ (buildFinalPrompt d1 c s).file_name =
        (buildFinalPrompt d2 c s).file_name
    ∧ (c.subject ≠ "" ∧ c.action ≠ "" →
        (buildFinalPrompt d1 c s).caption =
          (buildFinalPrompt d2 c s).caption) := by
  refine ⟨?_, ?_, ?_, fun h => ?_⟩ <;>
    rw [buildFinalPrompt_eq, buildFinalPrompt_eq] <;>
    by_cases h' : c.subject ≠ "" ∧ c.action ≠ "" <;>
    simp [h']
  exact absurd h h'

/-- Witness for C2: with subject and action both set, the caption does
not depend on a stale caption in the prior document. -/
theorem build_purity_witness :
    (buildFinalPrompt { initPrompt with caption := "stale" }
        { subject := "a", action := "b" } {}).caption =
      (buildFinalPrompt initPrompt { subject := "a", action := "b" }
        {}).caption :=
  (build_purity initPrompt { initPrompt with caption := "stale" }
      initPrompt { subject := "a", action := "b" } {}).2.2.2
    (by decide)

/-- C3: starting from the initial document, the caption after build is
the first 8 whitespace-delimited tokens of "subject action" joined by
single spaces when both subject and action are non-empty, and stays
empty otherwise; on the spec's example the caption is exactly the first
8 tokens with no trailing ellipsis. -/
theorem caption_rule (c : PromptComponents) (s : SceneConfig) :
    ((buildFinalPrompt initPrompt c s).caption =
      if c.subject ≠ "" ∧ c.action ≠ "" then
        " ".intercalate ((pySplit (c.subject ++ " " ++ c.action)).take 8)
      else "")
    ∧ (buildFinalPrompt initPrompt
        { subject := "A woman in her late 20s wearing red",
          action := "walking slowly down a street" } {}).caption =
      "A woman in her late 20s wearing red" := by
  constructor
  · rw [buildFinalPrompt_eq]
    rfl
  · decide

/-- C5: the suggestion engine writes only the camera and ambiance
fields and only when they are empty: every other field is unchanged,
and a non-empty camera or ambiance keeps its value. -/
theorem apply_suggestions_frame (c : PromptComponents) (s : SceneConfig)
    (a b : Bool) :
    (suggestFromScene c s a b).subject = c.subject
    ∧ (suggestFromScene c s a b).action = c.action
    ∧ (suggestFromScene c s a b).scene = c.scene
    ∧ (suggestFromScene c s a b).style = c.style
    ∧ (suggestFromScene c s a b).composition = c.composition
    ∧ (suggestFromScene c s a b).audio = c.audio
    ∧ (c.camera ≠ "" → (suggestFromScene c s a b).camera = c.camera)
    ∧ (c.ambiance ≠ "" →
        (suggestFromScene c s a b).ambiance = c.ambiance) := by
  rw [suggestFromScene_eq]
  refine ⟨rfl, rfl, rfl, rfl, rfl, rfl, fun h => ?_, fun h => ?_⟩
  · exact if_neg fun hc => h hc.1
  · exact if_neg fun hc => h hc.1

/-- Witness for C5: with camera already "X", the engine leaves it at
"X". -/
theorem apply_suggestions_frame_witness :
    (suggestFromScene { camera := "X", ambiance := "Y" } {} true
        true).camera = "X" :=
  (apply_suggestions_frame { camera := "X", ambiance := "Y" } {} true
      true).2.2.2.2.2.2.1 (by decide)

/-- C6 counterexample: merging a fragment holding the unknown key
"bogus" adds that key to the document instead of ignoring it. -/
theorem merge_unknown_key_counterexample :
    lookupKey (mergeStep (some [("bogus", JValue.str "x")])
        initCurrentPrompt) "bogus" = some (JValue.str "x")
      ∧ lookupKey initCurrentPrompt "bogus" = none := by
  constructor <;> decide

/-- C6 (amended): merging an embedded well-formed JSON object (with
distinct keys) overwrites matching keys of the current document with the
fragment's values and ADDS unknown keys of the fragment; a malformed
fragment is discarded and the document is left completely unchanged. -/
theorem merge_fragment_spec {V : Type} (d frag : List (String × V))
    (k : String) (hnd : (frag.map Prod.fst).Nodup) :
    mergeStep none d = d
    ∧ lookupKey (mergeStep (some frag) d) k =
        ((lookupKey frag k).orElse fun _ => lookupKey d k) :=
  ⟨rfl, lookupKey_dictUpdate d frag k hnd⟩

/-- Witness for C6: a fragment resetting the caption key overwrites it
in the initial document. -/
theorem merge_fragment_spec_witness :
    lookupKey (mergeStep (some [("caption", JValue.str "new")])
        initCurrentPrompt) "caption" = some (JValue.str "new") :=
  ((merge_fragment_spec initCurrentPrompt
      [("caption", JValue.str "new")] "caption" (by decide)).2).trans
    (by decide)

/-- C7: for every prior document, components and scene, build sets
file_name to shot_type with all spaces and hyphens removed, then "-",
then time_of_day, then ".mp4". -/
theorem file_name_rule (d : PromptDocument) (c : PromptComponents)
    (s : SceneConfig) :
    (buildFinalPrompt d c s).file_name =
      String.mk (s.shot_type.data.filter fun ch => ch ≠ ' ' ∧ ch ≠ '-')
        ++ "-" ++ s.time_of_day ++ ".mp4" := by
  have hf : removeChar ' ' (removeChar '-' s.shot_type) =
      String.mk (s.shot_type.data.filter fun ch => ch ≠ ' ' ∧ ch ≠ '-') := by
    unfold removeChar
    apply congrArg String.mk
    rw [show (String.mk (s.shot_type.data.filter fun a => a ≠ '-')).data
          = s.shot_type.data.filter (fun a => a ≠ '-') from rfl]
    rw [List.filter_filter]
    apply List.filter_congr
    intro a _
    by_cases h1 : a = ' ' <;> by_cases h2 : a = '-' <;> simp [h1, h2]
  show removeChar ' ' (removeChar '-' s.shot_type) ++ "-" ++ s.time_of_day
        ++ ".mp4" = _
  rw [hf]

/-- C8 counterexample: with shot_type "close-up" and time_of_day
"dusk", build does not produce the claimed "close-up-dusk.mp4" (the
hyphen of "close-up" is removed). -/
theorem file_name_hyphen_counterexample :
    (buildFinalPrompt initPrompt {}
        { shot_type := "close-up", time_of_day := "dusk" }).file_name ≠
      "close-up-dusk.mp4" := by
  decide

/-- C8 (amended): with scene.shot_type = "close-up" and
scene.time_of_day = "dusk", build produces file_name
"closeup-dusk.mp4" for every prior document and components. -/
theorem file_name_close_up_dusk (d : PromptDocument)
    (c : PromptComponents) :
    (buildFinalPrompt d c
        { shot_type := "close-up", time_of_day := "dusk" }).file_name =
      "closeup-dusk.mp4" := rfl

/-- C9: suggest_ambiance returns exactly the table string on each of
the eight listed (lighting_type, time_of_day) pairs, and on every pair
not in the table it returns exactly
lighting_type ++ " " ++ time_of_day ++ " lighting". -/
theorem suggest_ambiance_table :
    suggestAmbiance "natural" "day" =
        "Bright natural sunlight with soft shadows"
    ∧ suggestAmbiance "natural" "dawn" =
        "Golden hour lighting with warm orange tones"
    ∧ suggestAmbiance "natural" "dusk" =
        "Blue hour with deep purple and orange sky"
    ∧ suggestAmbiance "natural" "night" =
        "Moonlight with cool blue tones and deep shadows"
    ∧ suggestAmbiance "dramatic" "day" =
        "High contrast lighting with sharp shadows"
    ∧ suggestAmbiance "dramatic" "night" =
        "Chiaroscuro lighting with stark black and white contrast"
    ∧ suggestAmbiance "soft" "day" =
        "Diffused overcast light with gentle shadows"
    ∧ suggestAmbiance "backlit" "day" =
        "Strong backlighting creating silhouettes and rim light"
    ∧ ∀ lt td : String,
        ¬((lt = "natural" ∧ td = "day") ∨ (lt = "natural" ∧ td = "dawn")
          ∨ (lt = "natural" ∧ td = "dusk")
          ∨ (lt = "natural" ∧ td = "night")
          ∨ (lt = "dramatic" ∧ td = "day")
          ∨ (lt = "dramatic" ∧ td = "night")
          ∨ (lt = "soft" ∧ td = "day")
          ∨ (lt = "backlit" ∧ td = "day")) →
        suggestAmbiance lt td = lt ++ " " ++ td ++ " lighting" := by
  refine ⟨by decide, by decide, by decide, by decide, by decide,
    by decide, by decide, by decide, fun lt td h => ?_⟩
  simp only [not_or] at h
  obtain ⟨h1, h2, h3, h4, h5, h6, h7, h8⟩ := h
  unfold suggestAmbiance ambianceMap
  rw [if_neg h1, if_neg h2, if_neg h3, if_neg h4, if_neg h5, if_neg h6,
    if_neg h7, if_neg h8]
  rfl

/-- Witness for C9: the pair (soft, night) is not in the table, and the
fallback string is produced. -/
theorem suggest_ambiance_table_witness :
    suggestAmbiance "soft" "night" = "soft night lighting" :=
  suggest_ambiance_table.2.2.2.2.2.2.2.2 "soft" "night" (by decide)

/-- C10: build produces identical documents on any two components
values that agree on every field other than composition: the assembled
prompt, caption and file_name never depend on the caller-set
components.composition. -/
theorem build_ignores_composition (d : PromptDocument)
    (c1 c2 : PromptComponents) (s : SceneConfig)
    (h : c1.subject = c2.subject ∧ c1.action = c2.action
      ∧ c1.scene = c2.scene ∧ c1.style = c2.style
      ∧ c1.camera = c2.camera ∧ c1.ambiance = c2.ambiance
      ∧ c1.audio = c2.audio) :
    buildFinalPrompt d c1 s = buildFinalPrompt d c2 s := by
  obtain ⟨h1, h2, h3, h4, h5, h6, h7⟩ := h
  simp only [buildFinalPrompt, promptSegments, h1, h2, h3, h4, h5, h6,
    h7]

/-- Witness for C10: two components differing only in composition yield
the same document. -/
theorem build_ignores_composition_witness :
    buildFinalPrompt initPrompt { composition := "X" } {} =
      buildFinalPrompt initPrompt { composition := "Y" } {} :=
  build_ignores_composition initPrompt { composition := "X" }
    { composition := "Y" } {} (by decide)

end Vidjson
